import Mathlib

/-!
Shallow embedding of `ubidots/apiclient.py` (a Python 2 client library for the
Ubidots telemetry service) and proofs about its authenticated request bridge,
input validator, error taxonomy and resource materialization.

The transport (the `requests` module) is modelled as a script: a queue of
`Response` values consumed one per HTTP call; every performed call is logged so
that theorems can count resource calls and re-authentication exchanges.
Python exceptions are modelled with an `Except`-style error component that
keeps the state at the moment of the raise (side effects before a raise
persist, as in Python).
-/

/-- JSON-decoded Python values (the payloads and response bodies). -/
inductive JVal : Type where
  | jnull : JVal
  | jbool : Bool → JVal
  | jnum : Int → JVal
  | jstr : String → JVal
  | jarr : List JVal → JVal
  | jobj : List (String × JVal) → JVal

/-- Key lookup in an association list (a Python dict's item lookup). -/
def lookupFields : List (String × JVal) → String → Option JVal
  | [], _ => none
  | (k', v) :: fs, k => if k' == k then some v else lookupFields fs k

/-- `obj[k]`-style lookup returning `none` when the value is not a dict. -/
def JVal.lookup : JVal → String → Option JVal
  | .jobj fs, k => lookupFields fs k
  | _, _ => none

/-- Python truthiness of a decoded value (`if x:`). -/
def JVal.truthy : JVal → Bool
  | .jnull => false
  | .jbool b => b
  | .jnum n => n != 0
  | .jstr s => s != ""
  | .jarr xs => !xs.isEmpty
  | .jobj fs => !fs.isEmpty

/-- Truthiness of an optional argument (`None` when absent). -/
def pytruthy : Option JVal → Bool
  | none => false
  | some v => v.truthy

/-- `isinstance(x, basestring)` on an optional argument; `None` is not a string. -/
def isBasestring : Option JVal → Bool
  | some (.jstr _) => true
  | _ => false

/-- `isinstance(x, int)`; in Python 2 `bool` is a subclass of `int`. -/
def isPyInt : JVal → Bool
  | .jnum _ => true
  | .jbool _ => true
  | _ => false

mutual

/-- `json.dumps` on a decoded value (request-body serialization). -/
def json_dumps : JVal → String
  | .jnull => "null"
  | .jbool b => if b then "true" else "false"
  | .jnum n => toString n
  | .jstr s => "\"" ++ s ++ "\""
  | .jarr xs => "[" ++ json_dumps_arr xs ++ "]"
  | .jobj fs => "\x7b" ++ json_dumps_obj fs ++ "\x7d"

/-- Comma-separated serialization of an array's elements. -/
def json_dumps_arr : List JVal → String
  | [] => ""
  | [x] => json_dumps x
  | x :: y :: xs => json_dumps x ++ ", " ++ json_dumps_arr (y :: xs)

/-- Comma-separated serialization of an object's fields. -/
def json_dumps_obj : List (String × JVal) → String
  | [] => ""
  | [(k, v)] => "\"" ++ k ++ "\": " ++ json_dumps v
  | (k, v) :: y :: fs => "\"" ++ k ++ "\": " ++ json_dumps v ++ ", " ++ json_dumps_obj (y :: fs)

end

/-- `str(x)` as used on the id argument after its `isinstance` check passed:
on a string it is the string itself (the only reachable case in the source). -/
def pyStr : Option JVal → String
  | some (.jstr s) => s
  | some v => json_dumps v
  | none => "None"

/-- Python exceptions raised by the client: the Ubidots error taxonomy from the
source plus the builtin exceptions its code can raise. -/
inductive PyErr : Type where
  | ubidotsError : String → PyErr
  | ubidotsError400 : String → PyErr
  | ubidotsError500 : String → PyErr
  | invalidInput : String → PyErr
  | attributeError : String → PyErr
  | keyError : String → PyErr
  | typeError : String → PyErr
  | nameError : String → PyErr
deriving DecidableEq

/-- `k in obj` for the shapes Python's `in` accepts: dict key membership,
substring test on strings, element equality on lists; other values raise
`TypeError` (argument not iterable). -/
def py_contains (obj : JVal) (k : String) : Except PyErr Bool :=
  match obj with
  | .jobj fs => .ok (lookupFields fs k).isSome
  | .jstr s => .ok ((s.splitOn k).length > 1 || k == "")
  | .jarr xs => .ok (xs.any fun v => match v with | .jstr t => t == k | _ => false)
  | _ => .error (.typeError "argument is not iterable")

/-- `e[k]`: dict lookup raising `KeyError` when the key is absent; on a
non-dict subscripting with a string key raises `TypeError`. -/
def pySubscript (e : JVal) (k : String) : Except PyErr JVal :=
  match e with
  | .jobj fs =>
    match lookupFields fs k with
    | some v => .ok v
    | none => .error (.keyError k)
  | _ => .error (.typeError "value is not subscriptable with a string key")

/-- `self.<name>` where the attribute must be a string to build a path by
concatenation: a missing attribute raises `AttributeError`, a non-string one
makes the `str + value` concatenation raise `TypeError`. -/
def pyGetAttrStr (raw : JVal) (name : String) : Except PyErr String :=
  match JVal.lookup raw name with
  | some (.jstr s) => .ok s
  | some _ => .error (.typeError "cannot concatenate str and non-str")
  | none => .error (.attributeError name)

/-- The two argument shapes declared by `validate_input` in the source. -/
inductive PyType : Type where
  | dict : PyType
  | list : PyType
deriving DecidableEq

/-- `isinstance(x, dict)` / `isinstance(x, list)`. -/
def isInstanceOf : JVal → PyType → Bool
  | .jobj _, .dict => true
  | .jarr _, .list => true
  | _, _ => false

/-- Python 2's `str(dict)` / `str(list)` as interpolated into the message. -/
def typeName : PyType → String
  | .dict => "<type 'dict'>"
  | .list => "<type 'list'>"

/-- Message of the shape-mismatch `UbidotsInvalidInputError`. -/
def shapeErrMsg (ty : PyType) : String :=
  "Invalid argument type. Required: " ++ typeName ty

/-- Message of the missing-key `UbidotsInvalidInputError`. -/
def missingKeyMsg (k : String) : String :=
  "Key \"" ++ k ++ "\" is missing"

/-- `check_keys(obj)` from `validate_input`: for each required key in order,
raise naming the first key not contained in `obj`. -/
def check_keys : List String → JVal → Except PyErr Unit
  | [], _ => .ok ()
  | k :: ks, obj =>
    match py_contains obj k with
    | .error e => .error e
    | .ok true => check_keys ks obj
    | .ok false => .error (.invalidInput (missingKeyMsg k))

/-- `map(check_keys, args[0])` on a list argument; Python 2's `map` is eager,
so the elements are checked left to right and the first raise propagates. -/
def check_keys_list (ks : List String) : List JVal → Except PyErr Unit
  | [] => .ok ()
  | e :: es =>
    match check_keys ks e with
    | .ok () => check_keys_list ks es
    | .error err => .error err

/-- The body of the `validate_input(type, required_keys)` decorator applied to
the operation's first positional argument. -/
def validate_input (ty : PyType) (required_keys : List String) (arg : JVal) :
    Except PyErr Unit :=
  if !(isInstanceOf arg ty) then
    .error (.invalidInput (shapeErrMsg ty))
  else
    match arg with
    | .jarr xs => check_keys_list required_keys xs
    | .jobj _ => check_keys required_keys arg
    | _ => .ok ()

/-- An HTTP response as seen by the client: the status code, the raw text
body (`response.text`) and the JSON-decoded body (`response.json()`). -/
structure Response : Type where
  status_code : Nat
  text : String
  body : JVal

/-- A performed HTTP request as recorded by the transport log. -/
structure Request : Type where
  method : String
  url : String
  headers : List (String × JVal)
  data : Option String

/-- The mutable state of a `ServerBridge` instance together with the
simulated transport: the remaining response script and the log of the
requests performed so far. -/
structure BridgeState : Type where
  base_url : String
  apikey : String
  token : Option JVal
  token_header : List (String × JVal)
  script : List Response
  calls : List Request

/-- Computations over the bridge: state passing with Python-style exceptions.
A raise keeps the state reached so far (side effects before it persist). -/
def M (α : Type) : Type := BridgeState → Except PyErr α × BridgeState

/-- The `pure` of `M`. -/
def M.pure (a : α) : M α := fun s => (.ok a, s)

/-- The `bind` of `M`: exceptions short-circuit, keeping the state. -/
def M.bind (m : M α) (f : α → M β) : M β := fun s =>
  match m s with
  | (.ok a, s') => f a s'
  | (.error e, s') => (.error e, s')

instance M.instMonad : Monad M where
  pure := M.pure
  bind := M.bind

/-- Raise a Python exception. -/
def M.throw (e : PyErr) : M α := fun s => (.error e, s)

/-- Read the bridge state. -/
def M.getState : M BridgeState := fun s => (.ok s, s)

/-- Replace the bridge state. -/
def M.setState (s' : BridgeState) : M Unit := fun _ => (.ok (), s')

/-- Lift a pure fallible computation into `M`. -/
def liftE (e : Except PyErr α) : M α := fun s => (e, s)

/-- Run a bridge computation from a given state. -/
def runM (m : M α) (s : BridgeState) : Except PyErr α × BridgeState := m s

theorem M.bind_eq (m : M α) (f : α → M β) : m >>= f = M.bind m f := rfl

theorem M.pure_eq (a : α) : (Pure.pure a : M α) = M.pure a := rfl

/-- The default response handed out when the script is exhausted (never
reached in the scenarios considered by the theorems below). -/
def emptyScriptResponse : Response := ⟨599, "script exhausted", .jnull⟩

/-- Perform one HTTP call against the simulated transport: pop the next
scripted response and append the request to the call log. -/
def performRequest (req : Request) : M Response := fun s =>
  (.ok (s.script.headD emptyScriptResponse),
   { s with script := s.script.tail, calls := s.calls ++ [req] })

def BASE_URL : String := "http://app.ubidots.com/api/"

/-- `_get_custom_headers`. -/
def custom_headers : List (String × JVal) :=
  [("content-type", .jstr "application/json")]

/-- `_prepare_headers(h)`: merge the given header dict with the custom
headers. The source builds `dict(h.items() + custom.items())`; the keys
never collide, so list concatenation is an exact model. -/
def prepare_headers (hs : List (String × JVal)) : List (String × JVal) :=
  hs ++ custom_headers

/-- `create_exception_object(code, body)` from the source. -/
def create_exception_object (code : Nat) (body : String) : PyErr :=
  if code == 500 then .ubidotsError500 "An Internal Server Error Occurred."
  else if code == 400 then .ubidotsError400 ("Your request is invalid:\n  " ++ body)
  else .ubidotsError body

/-- The `raise_informative_exception(list_of_error_codes)` decorator: perform
the call; if the status code is in the list, raise the classified exception,
otherwise return the response. (The `try/except` around `response.text` in
the source cannot fail in this model, so `body` is always the text.) -/
def raise_informative_exception (codes : List Nat) (fn : M Response) : M Response := do
  let response ← fn
  if codes.contains response.status_code then
    M.throw (create_exception_object response.status_code response.text)
  else
    M.pure response

/-- The loop of `try_again` with `n + 1` iterations remaining: on a status in
`codes`, call `reauth` (the decorated object's `initialize`) and, if
iterations remain, repeat; after the last iteration the last response is
returned (the source's fall-through `return response`). -/
def try_again_go (codes : List Nat) (reauth : M Unit) (fn : M Response) :
    Nat → M Response
  | 0 => do
    let r ← fn
    if codes.contains r.status_code then
      reauth
      M.pure r
    else
      M.pure r
  | n + 1 => do
    let r ← fn
    if codes.contains r.status_code then
      reauth
      try_again_go codes reauth fn n
    else
      M.pure r

/-- `try_again(list_of_error_codes, number_of_tries)`; the model requires
`number_of_tries` at least 1 (the source always uses the default 2; with 0
the Python would hit an unbound local). -/
def try_again (codes : List Nat) (reauth : M Unit) (fn : M Response)
    (number_of_tries : Nat) : M Response :=
  try_again_go codes reauth fn (number_of_tries - 1)

/-- The undecorated body of `ServerBridge._post_with_apikey(path)`. -/
def ServerBridge.raw_post_with_apikey (path : String) : M Response := do
  let s ← M.getState
  performRequest ⟨"POST", s.base_url ++ path,
    prepare_headers [("X-UBIDOTS-APIKEY", .jstr s.apikey)], none⟩

/-- `ServerBridge._post_with_apikey`, decorated with
`raise_informative_exception([400, 500, 401, 403])`. -/
def ServerBridge._post_with_apikey (path : String) : M Response :=
  raise_informative_exception [400, 500, 401, 403]
    (ServerBridge.raw_post_with_apikey path)

/-- `ServerBridge._get_token`: exchange the API key for a session token at
`auth/token` and store both the token and the recomputed token header.
A response body without a `'token'` key raises `KeyError`. -/
def ServerBridge._get_token : M Unit := do
  let resp ← ServerBridge._post_with_apikey "auth/token"
  match JVal.lookup resp.body "token" with
  | none => M.throw (.keyError "token")
  | some tok => do
    let s ← M.getState
    M.setState { s with token := some tok, token_header := [("X-AUTH-TOKEN", tok)] }

/-- Embeds `ServerBridge.initialize` from the source, which just calls
`_get_token`; this is the re-authentication exchange. -/
def ServerBridge.reauthenticate : M Unit := ServerBridge._get_token

/-- The undecorated body of `ServerBridge.get(path)`: attach the token header
currently stored on the bridge and perform the GET. -/
def ServerBridge.raw_get (path : String) : M Response := do
  let s ← M.getState
  performRequest ⟨"GET", s.base_url ++ path, prepare_headers s.token_header, none⟩

/-- `ServerBridge.get`, with its decorators `try_again([403, 401])` over
`raise_informative_exception([400, 500])`. -/
def ServerBridge.get (path : String) : M Response :=
  try_again [403, 401] ServerBridge.reauthenticate
    (raise_informative_exception [400, 500] (ServerBridge.raw_get path)) 2

/-- `ServerBridge.get_with_url(url)`: undecorated GET against an absolute
URL, with the stored token header. -/
def ServerBridge.get_with_url (url : String) : M Response := do
  let s ← M.getState
  performRequest ⟨"GET", url, prepare_headers s.token_header, none⟩

/-- The undecorated body of `ServerBridge.post(path, data)`: attach the
stored token header, JSON-encode the payload, perform the POST. -/
def ServerBridge.raw_post (path : String) (data : JVal) : M Response := do
  let s ← M.getState
  performRequest ⟨"POST", s.base_url ++ path, prepare_headers s.token_header,
    some (json_dumps data)⟩

/-- `ServerBridge.post`, with its decorators. -/
def ServerBridge.post (path : String) (data : JVal) : M Response :=
  try_again [403, 401] ServerBridge.reauthenticate
    (raise_informative_exception [400, 500] (ServerBridge.raw_post path data)) 2

/-- The undecorated body of `ServerBridge.delete(path)`. -/
def ServerBridge.raw_delete (path : String) : M Response := do
  let s ← M.getState
  performRequest ⟨"DELETE", s.base_url ++ path, prepare_headers s.token_header, none⟩

/-- `ServerBridge.delete`, with its decorators. -/
def ServerBridge.delete (path : String) : M Response :=
  try_again [403, 401] ServerBridge.reauthenticate
    (raise_informative_exception [400, 500] (ServerBridge.raw_delete path)) 2

/-- A materialized Data Source: the raw attribute bag applied onto the
instance (attribute access is lookup in `raw`; the back references to the
client and bridge are implicit in `M`). -/
structure Datasource : Type where
  raw : JVal

/-- A materialized Variable: the raw attribute bag plus the resolved owning
data source (`self.datasource` after `__init__`). -/
structure Variable : Type where
  raw : JVal
  datasource : Datasource

/-- A `validate_input(ty, ks)`-decorated operation: run the validator on the
first positional argument before the body; a validation failure raises
without touching the network. -/
def guarded (ty : PyType) (ks : List String) (arg : JVal) (body : M α) : M α :=
  fun s =>
    match validate_input ty ks arg with
    | .error e => (.error e, s)
    | .ok () => body s

/-- `ApiClient.get_datasource(id=None, url=None)`. The source's `elif url:`
branch checks `isinstance(id, basestring)` — the wrong variable — before
using `url`; the model preserves that. The final fall-through (both
arguments falsy strings) would hit Python's unbound `raw_datasource` and is
modelled as `NameError`; a non-string truthy `url` reaching the transport
call would make `requests` fail, modelled as `TypeError`. -/
def ApiClient.get_datasource (id url : Option JVal) : M Datasource := do
  if !(pytruthy id) && !(pytruthy url) then
    M.throw (.invalidInput "id or url required")
  else if pytruthy id then
    if !(isBasestring id) then
      M.throw (.invalidInput "Argument \"id\" must be a string.")
    else do
      let resp ← ServerBridge.get ("datasources/" ++ pyStr id)
      M.pure ⟨resp.body⟩
  else if pytruthy url then
    if !(isBasestring id) then
      M.throw (.invalidInput "Argument \"url\" must be a string.")
    else
      match url with
      | some (.jstr u) => do
        let resp ← ServerBridge.get_with_url u
        M.pure ⟨resp.body⟩
      | _ => M.throw (.typeError "url is not a string")
  else
    M.throw (.nameError "raw_datasource")

/-- `Variable.__init__(raw_data, api, **kwargs)`: the raw attributes are
applied to the instance, then `self.datasource = self._get_datasource(**kwargs)`.
With no `datasource` keyword, `_get_datasource` reads the `datasource`
attribute injected from the raw payload (raising `AttributeError` when the
payload has no such field) and fetches `self.api.get_datasource(url=...['url'])`. -/
def Variable.init (raw : JVal) (dskw : Option Datasource) : M Variable := do
  match dskw with
  | some ds => M.pure ⟨raw, ds⟩
  | none =>
    match JVal.lookup raw "datasource" with
    | none => M.throw (.attributeError "datasource")
    | some dsv =>
      match pySubscript dsv "url" with
      | .error e => M.throw e
      | .ok uv => do
        let ds ← ApiClient.get_datasource none (some uv)
        M.pure ⟨raw, ds⟩

/-- `ApiClient.create_datasource(data)`, guarded by
`validate_input(dict, ["name"])`. -/
def ApiClient.create_datasource (data : JVal) : M Datasource :=
  guarded .dict ["name"] data (do
    let resp ← ServerBridge.post "datasources/" data
    M.pure ⟨resp.body⟩)

/-- `Datasource.create_variable(data)`, guarded by
`validate_input(dict, ["name", "unit", "icon"])`; the created Variable gets
`datasource=self`, so no extra fetch happens. -/
def Datasource.create_variable (ds : Datasource) (data : JVal) : M Variable :=
  guarded .dict ["name", "unit", "icon"] data (do
    let selfId ← liftE (pyGetAttrStr ds.raw "id")
    let resp ← ServerBridge.post ("datasources/" ++ selfId ++ "/variables") data
    Variable.init resp.body (some ds))

/-- `Variable.save_value(data)`, guarded by `validate_input(dict, ["value"])`;
`data.get('timestamp', 0)` must be an int. -/
def Variable.save_value (v : Variable) (data : JVal) : M JVal :=
  guarded .dict ["value"] data (do
    let tsv := (JVal.lookup data "timestamp").getD (.jnum 0)
    if !(isPyInt tsv) then
      M.throw (.invalidInput "Key \"timestamp\" must point to an int value.")
    else do
      let selfId ← liftE (pyGetAttrStr v.raw "id")
      let resp ← ServerBridge.post ("variables/" ++ selfId ++ "/values") data
      M.pure resp.body)

/-- `all(isinstance(e['timestamp'], int) for e in data)`: elements are
examined left to right; the first non-int stops the scan with `False`, a
missing key raises `KeyError`, a non-dict element raises `TypeError`. -/
def timestamp_all : List JVal → Except PyErr Bool
  | [] => .ok true
  | e :: es =>
    match pySubscript e "timestamp" with
    | .error err => .error err
    | .ok v => if isPyInt v then timestamp_all es else .ok false

/-- `Variable.save_values(data, force)`, guarded by
`validate_input(list, ["key", "timestamp"])`. -/
def Variable.save_values (v : Variable) (data : JVal) (force : Bool) : M JVal :=
  guarded .list ["key", "timestamp"] data (do
    match data with
    | .jarr xs => do
      let allInt ← liftE (timestamp_all xs)
      if !allInt then
        M.throw (.invalidInput "Key \"timestamp\" must point to an int value")
      else do
        let selfId ← liftE (pyGetAttrStr v.raw "id")
        let path := "variables/" ++ selfId ++ "/values" ++
          (if force then "?force=true" else "")
        let resp ← ServerBridge.post path data
        M.pure resp.body
    | _ => M.throw (.typeError "argument is not iterable"))

/-- `ApiClient.save_collection(data, force)`, guarded by
`validate_input(list, ["variable", "value"])`. -/
def ApiClient.save_collection (data : JVal) (force : Bool) : M JVal :=
  guarded .list ["variable", "value"] data (do
    let path := "collections/values" ++ (if force then "?force=true" else "")
    let resp ← ServerBridge.post path data
    M.pure resp.body)

/-- `ApiClient._transform_to_variable_objects(raw_variables)`: materialize
each element of the decoded list in order (iterating a non-list raises). -/
def ApiClient._transform_to_variable_objects (raw : JVal) : M (List Variable) :=
  match raw with
  | .jarr xs => xs.mapM (fun rv => Variable.init rv none)
  | _ => M.throw (.typeError "argument is not iterable")

/-- The method names defined in the class body of `ApiClient` in the source
(Python attribute lookup on the instance resolves against these). -/
def ApiClient.methodNames : List String :=
  ["__init__", "get_datasources", "get_datasource", "create_datasource",
   "get_variables", "get_variable", "save_collection",
   "_transform_to_datasource_objects", "_transform_to_variable_objects"]

/-- `ApiClient.get_variables()`: fetch `variables`, then call
`self.transform_to_variables_objects(raw_variables)`. `ApiClient` defines no
method of that name (the defined helper is `_transform_to_variable_objects`),
so the attribute lookup raises `AttributeError`. -/
def ApiClient.get_variables : M (List Variable) := do
  let resp ← ServerBridge.get "variables"
  if ApiClient.methodNames.contains "transform_to_variables_objects" then
    ApiClient._transform_to_variable_objects resp.body
  else
    M.throw (.attributeError "transform_to_variables_objects")

/-- The state of a bridge that has completed its constructor's initial
authentication and currently holds token `tok`, facing transport script
`script`, with an empty call log. -/
def initState (apikey : String) (tok : JVal) (script : List Response) : BridgeState :=
  { base_url := BASE_URL, apikey := apikey, token := some tok,
    token_header := [("X-AUTH-TOKEN", tok)], script := script, calls := [] }

/-- A request is a re-authentication exchange exactly when it carries the
API-key header (only `_post_with_apikey` attaches it). -/
def isAuthRequest (r : Request) : Bool :=
  r.headers.any (fun p => p.1 == "X-UBIDOTS-APIKEY")

/-- Number of re-authentication exchanges performed so far. -/
def authCount (s : BridgeState) : Nat :=
  (s.calls.filter isAuthRequest).length

/-- Number of resource (non-authentication) calls performed so far. -/
def resourceCount (s : BridgeState) : Nat :=
  (s.calls.filter (fun r => !(isAuthRequest r))).length

/-- A successful authentication-exchange response installing token `t`. -/
def authOkResponse (t : String) : Response :=
  ⟨200, "", .jobj [("token", .jstr t)]⟩

/-- The re-authentication exchange request, as logged. -/
def authReq (apikey : String) : Request :=
  ⟨"POST", BASE_URL ++ "auth/token",
   [("X-UBIDOTS-APIKEY", .jstr apikey), ("content-type", .jstr "application/json")], none⟩

/-- A `get(path)` resource request carrying session token `tok`, as logged. -/
def resourceGetReq (path : String) (tok : JVal) : Request :=
  ⟨"GET", BASE_URL ++ path,
   [("X-AUTH-TOKEN", tok), ("content-type", .jstr "application/json")], none⟩

/-- A `post(path, d)` resource request carrying session token `tok`, as logged. -/
def resourcePostReq (path : String) (tok : JVal) (d : JVal) : Request :=
  ⟨"POST", BASE_URL ++ path,
   [("X-AUTH-TOKEN", tok), ("content-type", .jstr "application/json")],
   some (json_dumps d)⟩

/-- A `delete(path)` resource request carrying session token `tok`, as logged. -/
def resourceDeleteReq (path : String) (tok : JVal) : Request :=
  ⟨"DELETE", BASE_URL ++ path,
   [("X-AUTH-TOKEN", tok), ("content-type", .jstr "application/json")], none⟩

/-- The C1 scenario: the resource call gets an authentication-failure status
on both attempts; each re-authentication exchange itself succeeds. -/
def c1Script : List Response :=
  [⟨401, "auth failed", .jnull⟩, authOkResponse "t1",
   ⟨401, "auth failed again", .jnull⟩, authOkResponse "t2"]

/-- The bridge state at the start of the C1 scenario. -/
def c1State : BridgeState := initState "apikey" (.jstr "t0") c1Script

/-- C1 is false on the code: with 401 on both resource attempts, `get` does
not raise any typed error — it returns the second 401 response as a success
value — and two re-authentication exchanges occur (one after each failed
attempt), not one. -/
theorem c1_counterexample :
    (runM (ServerBridge.get "datasources") c1State).1
      = .ok ⟨401, "auth failed again", .jnull⟩
    ∧ (runM (ServerBridge.get "datasources") c1State).1
      ≠ .error (.ubidotsError "auth failed again")
    ∧ authCount (runM (ServerBridge.get "datasources") c1State).2 ≠ 1 := by
  refine ⟨rfl, ?_, ?_⟩
  · have h : (runM (ServerBridge.get "datasources") c1State).1
        = .ok ⟨401, "auth failed again", .jnull⟩ := rfl
    rw [h]
    simp
  · have h : authCount (runM (ServerBridge.get "datasources") c1State).2 = 2 := rfl
    rw [h]
    simp

/-- C1 (amended): for `get`, `post` and `delete`, if the transport returns an
authentication-failure status (401 or 403) on both the first attempt and the
single retry, the operation performs exactly one retry of the resource call
(two resource calls, to the same path), performs a re-authentication exchange
after each failed attempt (two in total), and returns the second failing
response to the caller without raising a typed error. -/
theorem c1_amended (apikey t0 path t1 t2 : String) (d : JVal) (r1 ra1 r2 ra2 : Response)
    (h1 : r1.status_code = 401 ∨ r1.status_code = 403)
    (h2 : r2.status_code = 401 ∨ r2.status_code = 403)
    (ha1 : ra1.status_code = 200) (hab1 : ra1.body = .jobj [("token", .jstr t1)])
    (ha2 : ra2.status_code = 200) (hab2 : ra2.body = .jobj [("token", .jstr t2)]) :
    (runM (ServerBridge.get path)
        (initState apikey (.jstr t0) [r1, ra1, r2, ra2])).1 = .ok r2
    ∧ (runM (ServerBridge.get path)
        (initState apikey (.jstr t0) [r1, ra1, r2, ra2])).2.calls
      = [resourceGetReq path (.jstr t0), authReq apikey,
         resourceGetReq path (.jstr t1), authReq apikey]
    ∧ authCount (runM (ServerBridge.get path)
        (initState apikey (.jstr t0) [r1, ra1, r2, ra2])).2 = 2
    ∧ resourceCount (runM (ServerBridge.get path)
        (initState apikey (.jstr t0) [r1, ra1, r2, ra2])).2 = 2
    ∧ (runM (ServerBridge.post path d)
        (initState apikey (.jstr t0) [r1, ra1, r2, ra2])).1 = .ok r2
    ∧ (runM (ServerBridge.post path d)
        (initState apikey (.jstr t0) [r1, ra1, r2, ra2])).2.calls
      = [resourcePostReq path (.jstr t0) d, authReq apikey,
         resourcePostReq path (.jstr t1) d, authReq apikey]
    ∧ (runM (ServerBridge.delete path)
        (initState apikey (.jstr t0) [r1, ra1, r2, ra2])).1 = .ok r2
    ∧ (runM (ServerBridge.delete path)
        (initState apikey (.jstr t0) [r1, ra1, r2, ra2])).2.calls
      = [resourceDeleteReq path (.jstr t0), authReq apikey,
         resourceDeleteReq path (.jstr t1), authReq apikey] := by
  rcases h1 with h1 | h1 <;> rcases h2 with h2 | h2 <;>
    simp [runM, ServerBridge.get, ServerBridge.post, ServerBridge.delete,
      try_again, try_again_go, raise_informative_exception,
      ServerBridge.raw_get, ServerBridge.raw_post, ServerBridge.raw_delete,
      ServerBridge.reauthenticate, ServerBridge._get_token,
      ServerBridge._post_with_apikey, ServerBridge.raw_post_with_apikey,
      performRequest, prepare_headers, custom_headers, initState,
      M.bind_eq, M.pure_eq, M.bind, M.pure, M.getState, M.setState, M.throw,
      JVal.lookup, lookupFields, List.contains, h1, h2, ha1, hab1, ha2, hab2,
      create_exception_object, authCount, resourceCount, isAuthRequest,
      authReq, resourceGetReq, resourcePostReq, resourceDeleteReq]

/-- Witness for `c1_amended` at a concrete input. -/
theorem c1_amended_witness :
    ((401 : Nat) = 401 ∨ (401 : Nat) = 403)
    ∧ (runM (ServerBridge.get "datasources") c1State).1
      = .ok ⟨401, "auth failed again", .jnull⟩
    ∧ authCount (runM (ServerBridge.get "datasources") c1State).2 = 2 := by
  refine ⟨Or.inl rfl, ?_, ?_⟩
  · exact (c1_amended "apikey" "t0" "datasources" "t1" "t2" .jnull
      ⟨401, "auth failed", .jnull⟩ (authOkResponse "t1")
      ⟨401, "auth failed again", .jnull⟩ (authOkResponse "t2")
      (Or.inl rfl) (Or.inl rfl) rfl rfl rfl rfl).1
  · exact (c1_amended "apikey" "t0" "datasources" "t1" "t2" .jnull
      ⟨401, "auth failed", .jnull⟩ (authOkResponse "t1")
      ⟨401, "auth failed again", .jnull⟩ (authOkResponse "t2")
      (Or.inl rfl) (Or.inl rfl) rfl rfl rfl rfl).2.2.1

/-- C2: for `get`, `post` and `delete`, if the transport returns 401 (or 403)
on the first attempt and a 2xx status on the retry, after a successful
re-authentication exchange the operation succeeds with the second response
(whose decoded body is the returned payload), and exactly one
re-authentication exchange plus two resource calls to the same path occur. -/
theorem c2_retry_success (apikey t0 path t1 : String) (d : JVal) (r1 ra r2 : Response)
    (h1 : r1.status_code = 401 ∨ r1.status_code = 403)
    (ha : ra.status_code = 200) (hab : ra.body = .jobj [("token", .jstr t1)])
    (hlo : 200 ≤ r2.status_code) (hhi : r2.status_code < 300) :
    (runM (ServerBridge.get path)
        (initState apikey (.jstr t0) [r1, ra, r2])).1 = .ok r2
    ∧ (runM (ServerBridge.get path)
        (initState apikey (.jstr t0) [r1, ra, r2])).2.calls
      = [resourceGetReq path (.jstr t0), authReq apikey,
         resourceGetReq path (.jstr t1)]
    ∧ authCount (runM (ServerBridge.get path)
        (initState apikey (.jstr t0) [r1, ra, r2])).2 = 1
    ∧ resourceCount (runM (ServerBridge.get path)
        (initState apikey (.jstr t0) [r1, ra, r2])).2 = 2
    ∧ (runM (ServerBridge.post path d)
        (initState apikey (.jstr t0) [r1, ra, r2])).1 = .ok r2
    ∧ (runM (ServerBridge.post path d)
        (initState apikey (.jstr t0) [r1, ra, r2])).2.calls
      = [resourcePostReq path (.jstr t0) d, authReq apikey,
         resourcePostReq path (.jstr t1) d]
    ∧ (runM (ServerBridge.delete path)
        (initState apikey (.jstr t0) [r1, ra, r2])).1 = .ok r2
    ∧ (runM (ServerBridge.delete path)
        (initState apikey (.jstr t0) [r1, ra, r2])).2.calls
      = [resourceDeleteReq path (.jstr t0), authReq apikey,
         resourceDeleteReq path (.jstr t1)] := by
  have h403 : r2.status_code ≠ 403 := by omega
  have h401 : r2.status_code ≠ 401 := by omega
  have h400 : r2.status_code ≠ 400 := by omega
  have h500 : r2.status_code ≠ 500 := by omega
  rcases h1 with h1 | h1 <;>
    simp [runM, ServerBridge.get, ServerBridge.post, ServerBridge.delete,
      try_again, try_again_go, raise_informative_exception,
      ServerBridge.raw_get, ServerBridge.raw_post, ServerBridge.raw_delete,
      ServerBridge.reauthenticate, ServerBridge._get_token,
      ServerBridge._post_with_apikey, ServerBridge.raw_post_with_apikey,
      performRequest, prepare_headers, custom_headers, initState,
      M.bind_eq, M.pure_eq, M.bind, M.pure, M.getState, M.setState, M.throw,
      JVal.lookup, lookupFields, List.contains, h1, ha, hab,
      h403, h401, h400, h500,
      create_exception_object, authCount, resourceCount, isAuthRequest,
      authReq, resourceGetReq, resourcePostReq, resourceDeleteReq]

/-- Witness for `c2_retry_success` at a concrete input. -/
theorem c2_retry_success_witness :
    ((401 : Nat) = 401 ∨ (401 : Nat) = 403)
    ∧ (200 : Nat) ≤ 200 ∧ (200 : Nat) < 300
    ∧ (runM (ServerBridge.get "datasources")
        (initState "apikey" (.jstr "t0")
          [⟨401, "no", .jnull⟩, authOkResponse "t1", ⟨200, "ok", .jstr "payload"⟩])).1
      = .ok ⟨200, "ok", .jstr "payload"⟩
    ∧ authCount (runM (ServerBridge.get "datasources")
        (initState "apikey" (.jstr "t0")
          [⟨401, "no", .jnull⟩, authOkResponse "t1", ⟨200, "ok", .jstr "payload"⟩])).2 = 1
    ∧ resourceCount (runM (ServerBridge.get "datasources")
        (initState "apikey" (.jstr "t0")
          [⟨401, "no", .jnull⟩, authOkResponse "t1", ⟨200, "ok", .jstr "payload"⟩])).2 = 2 := by
  refine ⟨Or.inl rfl, le_refl _, by omega, ?_, ?_, ?_⟩
  · exact (c2_retry_success "apikey" "t0" "datasources" "t1" .jnull
      ⟨401, "no", .jnull⟩ (authOkResponse "t1") ⟨200, "ok", .jstr "payload"⟩
      (Or.inl rfl) rfl rfl (by decide) (by decide)).1
  · exact (c2_retry_success "apikey" "t0" "datasources" "t1" .jnull
      ⟨401, "no", .jnull⟩ (authOkResponse "t1") ⟨200, "ok", .jstr "payload"⟩
      (Or.inl rfl) rfl rfl (by decide) (by decide)).2.2.1
  · exact (c2_retry_success "apikey" "t0" "datasources" "t1" .jnull
      ⟨401, "no", .jnull⟩ (authOkResponse "t1") ⟨200, "ok", .jstr "payload"⟩
      (Or.inl rfl) rfl rfl (by decide) (by decide)).2.2.2.1

/-- The C6 scenario: the transport answers 404 with body `"not found"`. -/
def c6State : BridgeState :=
  initState "apikey" (.jstr "t0") [⟨404, "not found", .jstr "nf"⟩]

/-- C6 is false on the code for non-2xx codes outside 400, 500, 401, 403:
a 404 response does not raise a `GenericError` (UbidotsError) with the raw
body as message — both raising decorators pass it through and `get` returns
it as a success value. -/
theorem c6_counterexample :
    (runM (ServerBridge.get "datasources") c6State).1
      = .ok ⟨404, "not found", .jstr "nf"⟩
    ∧ (runM (ServerBridge.get "datasources") c6State).1
      ≠ .error (.ubidotsError "not found") := by
  refine ⟨rfl, ?_⟩
  have h : (runM (ServerBridge.get "datasources") c6State).1
      = .ok ⟨404, "not found", .jstr "nf"⟩ := rfl
  rw [h]
  simp

/-- C6 (amended): for `get`, `post` and `delete`, every response whose status
code is not 400, 500, 401 or 403 — 2xx or not, e.g. 404 — is treated as
success: the operation returns the response (whose decoded body is the
returned payload) after exactly one resource call and no re-authentication.
`GenericError` is never raised by these operations; only the authentication
exchange `_post_with_apikey` raises it, for 401/403, with the raw body. -/
theorem c6_amended (apikey t0 path b : String) (d : JVal) (r : Response)
    (h400 : r.status_code ≠ 400) (h500 : r.status_code ≠ 500)
    (h401 : r.status_code ≠ 401) (h403 : r.status_code ≠ 403) :
    (runM (ServerBridge.get path) (initState apikey (.jstr t0) [r])).1 = .ok r
    ∧ (runM (ServerBridge.get path) (initState apikey (.jstr t0) [r])).2.calls
      = [resourceGetReq path (.jstr t0)]
    ∧ authCount (runM (ServerBridge.get path)
        (initState apikey (.jstr t0) [r])).2 = 0
    ∧ (runM (ServerBridge.post path d) (initState apikey (.jstr t0) [r])).1 = .ok r
    ∧ (runM (ServerBridge.post path d)
        (initState apikey (.jstr t0) [r])).2.calls
      = [resourcePostReq path (.jstr t0) d]
    ∧ (runM (ServerBridge.delete path) (initState apikey (.jstr t0) [r])).1 = .ok r
    ∧ (runM (ServerBridge.delete path)
        (initState apikey (.jstr t0) [r])).2.calls
      = [resourceDeleteReq path (.jstr t0)]
    ∧ create_exception_object 404 b = .ubidotsError b := by
  simp [runM, ServerBridge.get, ServerBridge.post, ServerBridge.delete,
    try_again, try_again_go, raise_informative_exception,
    ServerBridge.raw_get, ServerBridge.raw_post, ServerBridge.raw_delete,
    performRequest, prepare_headers, custom_headers, initState,
    M.bind_eq, M.pure_eq, M.bind, M.pure, M.getState, M.setState, M.throw,
    List.contains, h400, h500, h401, h403,
    create_exception_object, authCount, resourceCount, isAuthRequest,
    authReq, resourceGetReq, resourcePostReq, resourceDeleteReq]

/-- Witness for `c6_amended` at the 404 input. -/
theorem c6_amended_witness :
    ((404 : Nat) ≠ 400 ∧ (404 : Nat) ≠ 500 ∧ (404 : Nat) ≠ 401 ∧ (404 : Nat) ≠ 403)
    ∧ (runM (ServerBridge.get "datasources") c6State).1
      = .ok ⟨404, "not found", .jstr "nf"⟩
    ∧ authCount (runM (ServerBridge.get "datasources") c6State).2 = 0 := by
  refine ⟨⟨by decide, by decide, by decide, by decide⟩, ?_, ?_⟩
  · exact (c6_amended "apikey" "t0" "datasources" "nf" .jnull
      ⟨404, "not found", .jstr "nf"⟩ (by decide) (by decide) (by decide) (by decide)).1
  · exact (c6_amended "apikey" "t0" "datasources" "nf" .jnull
      ⟨404, "not found", .jstr "nf"⟩ (by decide) (by decide) (by decide) (by decide)).2.2.1

/-- C7: a 400-classified response raises `UbidotsError400` whose message is
the fixed prefix plus the response body (so it contains the body text), and a
500-classified response raises `UbidotsError500` with the fixed generic
message, which is independent of the response body (the same error results
for every body, so no transport-provided text can occur in it). -/
theorem c7_error_messages (apikey t0 path b b' : String) (body : JVal) :
    (runM (ServerBridge.get path)
        (initState apikey (.jstr t0) [⟨400, b, body⟩])).1
      = .error (.ubidotsError400 ("Your request is invalid:\n  " ++ b))
    ∧ (runM (ServerBridge.get path)
        (initState apikey (.jstr t0) [⟨500, b, body⟩])).1
      = .error (.ubidotsError500 "An Internal Server Error Occurred.")
    ∧ create_exception_object 400 b
      = .ubidotsError400 ("Your request is invalid:\n  " ++ b)
    ∧ create_exception_object 500 b = create_exception_object 500 b' := by
  exact ⟨rfl, rfl, rfl, rfl⟩

/-- A bridge state with an empty script, used as the starting state of
witnesses where no transport call should occur. -/
def idleState : BridgeState := initState "apikey" (.jstr "t0") []

/-- The `elif url:` branch of `get_datasource` with `id = None` and a
non-empty string url raises the wrong-variable `InvalidInput` without
touching the state. -/
theorem get_datasource_wrong_variable (s : BridgeState) (u : String) (h : u ≠ "") :
    runM (ApiClient.get_datasource none (some (.jstr u))) s
      = (.error (.invalidInput "Argument \"url\" must be a string."), s) := by
  simp [runM, ApiClient.get_datasource, pytruthy, JVal.truthy, isBasestring,
    M.bind_eq, M.pure_eq, M.bind, M.pure, M.throw, h]

/-- C3 fails on the code (the spec itself flags this as a bug): when a
non-empty string `url` is supplied and no `id`, `get_datasource` checks
`isinstance(id, basestring)` — the wrong variable, and `id` is `None` — so it
always raises `UbidotsInvalidInputError` instead of fetching the absolute
URL; the state is untouched, so no fetch is ever attempted. -/
theorem c3_url_arg_bug (s : BridgeState) (u : String) (h : u ≠ "") :
    runM (ApiClient.get_datasource none (some (.jstr u))) s
      = (.error (.invalidInput "Argument \"url\" must be a string."), s) :=
  get_datasource_wrong_variable s u h

/-- Witness for `c3_url_arg_bug` at a concrete failing input. -/
theorem c3_url_arg_bug_witness :
    ("http://app.ubidots.com/api/datasources/1" ≠ "")
    ∧ runM (ApiClient.get_datasource none
        (some (.jstr "http://app.ubidots.com/api/datasources/1"))) idleState
      = (.error (.invalidInput "Argument \"url\" must be a string."), idleState) := by
  exact ⟨by decide, c3_url_arg_bug idleState _ (by decide)⟩

/-- C4 fails on the code (a consequence of the `get_datasource` wrong-variable
bug the spec flags): materializing a Variable whose raw payload's
`datasource` field carries a non-empty URL, with no data source supplied at
construction, does not fetch that URL — the nested
`get_datasource(url=...)` call raises `UbidotsInvalidInputError` because it
checks `isinstance(id, basestring)` with `id = None`; no transport call is
made (the state is untouched) and no Variable is constructed. -/
theorem c4_variable_datasource_bug (s : BridgeState) (raw dsv : JVal) (u : String)
    (hds : JVal.lookup raw "datasource" = some dsv)
    (hurl : pySubscript dsv "url" = .ok (.jstr u)) (h : u ≠ "") :
    runM (Variable.init raw none) s
      = (.error (.invalidInput "Argument \"url\" must be a string."), s) := by
  have hbug := get_datasource_wrong_variable s u h
  simp only [runM] at hbug
  simp [runM, Variable.init, hds, hurl, M.bind_eq, M.pure_eq, M.bind, M.pure,
    M.throw, hbug]

/-- Witness for `c4_variable_datasource_bug` at a concrete failing payload. -/
theorem c4_variable_datasource_bug_witness :
    JVal.lookup (.jobj [("id", .jstr "v1"),
        ("datasource", .jobj [("url", .jstr "http://app.ubidots.com/api/datasources/d1")])])
      "datasource" = some (.jobj [("url", .jstr "http://app.ubidots.com/api/datasources/d1")])
    ∧ pySubscript (.jobj [("url", .jstr "http://app.ubidots.com/api/datasources/d1")]) "url"
      = .ok (.jstr "http://app.ubidots.com/api/datasources/d1")
    ∧ ("http://app.ubidots.com/api/datasources/d1" ≠ "")
    ∧ runM (Variable.init (.jobj [("id", .jstr "v1"),
        ("datasource", .jobj [("url", .jstr "http://app.ubidots.com/api/datasources/d1")])]) none)
        idleState
      = (.error (.invalidInput "Argument \"url\" must be a string."), idleState) := by
  exact ⟨rfl, rfl, by decide,
    c4_variable_datasource_bug idleState _ _ _ rfl rfl (by decide)⟩

/-- C5 fails on the code: after a successful 2xx fetch of the variables list,
`get_variables` calls `self.transform_to_variables_objects`, but `ApiClient`
defines no method of that name (the helper is named
`_transform_to_variable_objects`), so the operation raises `AttributeError`
instead of returning materialized Variables. -/
theorem c5_list_variables_bug (apikey t0 : String) (r : Response)
    (hlo : 200 ≤ r.status_code) (hhi : r.status_code < 300) :
    (runM ApiClient.get_variables (initState apikey (.jstr t0) [r])).1
      = .error (.attributeError "transform_to_variables_objects")
    ∧ (runM ApiClient.get_variables (initState apikey (.jstr t0) [r])).2.calls
      = [resourceGetReq "variables" (.jstr t0)] := by
  have h403 : r.status_code ≠ 403 := by omega
  have h401 : r.status_code ≠ 401 := by omega
  have h400 : r.status_code ≠ 400 := by omega
  have h500 : r.status_code ≠ 500 := by omega
  simp [runM, ApiClient.get_variables, ApiClient.methodNames,
    ServerBridge.get, try_again, try_again_go, raise_informative_exception,
    ServerBridge.raw_get, performRequest, prepare_headers, custom_headers,
    initState, M.bind_eq, M.pure_eq, M.bind, M.pure, M.getState, M.setState,
    M.throw, List.contains, h403, h401, h400, h500, create_exception_object,
    resourceGetReq]

/-- Witness for `c5_list_variables_bug` at a concrete input: a 200 response
whose decoded body is a (well-formed) list of raw variable objects. -/
theorem c5_list_variables_bug_witness :
    ((200 : Nat) ≤ 200 ∧ (200 : Nat) < 300)
    ∧ (runM ApiClient.get_variables (initState "apikey" (.jstr "t0")
        [⟨200, "", .jarr [.jobj [("id", .jstr "v1"),
          ("datasource", .jobj [("url", .jstr "http://u")])]]⟩])).1
      = .error (.attributeError "transform_to_variables_objects") := by
  refine ⟨⟨by decide, by decide⟩, ?_⟩
  exact (c5_list_variables_bug "apikey" "t0"
    ⟨200, "", .jarr [.jobj [("id", .jstr "v1"),
      ("datasource", .jobj [("url", .jstr "http://u")])]]⟩
    (by decide) (by decide)).1

/-- C9: the session-token header of every authenticated attempt is computed
from the token header stored on the bridge at the moment that attempt is
performed, not from a copy captured earlier. The first four conjuncts show
it for every authenticated call body — the undecorated `get`, `post` and
`delete` and the undecorated `get_with_url` — for any state; the remaining
conjuncts show that in a 401-then-2xx run of each retried operation the
first attempt carries the old token `t0`, the retry carries the token `t1`
just installed by the re-authentication, and `t1` is the token left stored
on the bridge. -/
theorem c9_token_recomputed (apikey t0 path t1 : String) (d : JVal)
    (r1 ra r2 : Response)
    (h1 : r1.status_code = 401 ∨ r1.status_code = 403)
    (ha : ra.status_code = 200) (hab : ra.body = .jobj [("token", .jstr t1)])
    (hlo : 200 ≤ r2.status_code) (hhi : r2.status_code < 300) :
    (∀ (s : BridgeState) (p : String),
      (runM (ServerBridge.raw_get p) s).2.calls
        = s.calls ++ [⟨"GET", s.base_url ++ p, prepare_headers s.token_header, none⟩])
    ∧ (∀ (s : BridgeState) (p : String) (d' : JVal),
      (runM (ServerBridge.raw_post p d') s).2.calls
        = s.calls ++ [⟨"POST", s.base_url ++ p, prepare_headers s.token_header,
            some (json_dumps d')⟩])
    ∧ (∀ (s : BridgeState) (p : String),
      (runM (ServerBridge.raw_delete p) s).2.calls
        = s.calls ++ [⟨"DELETE", s.base_url ++ p, prepare_headers s.token_header, none⟩])
    ∧ (∀ (s : BridgeState) (u : String),
      (runM (ServerBridge.get_with_url u) s).2.calls
        = s.calls ++ [⟨"GET", u, prepare_headers s.token_header, none⟩])
    ∧ (runM (ServerBridge.get path)
        (initState apikey (.jstr t0) [r1, ra, r2])).2.calls
      = [resourceGetReq path (.jstr t0), authReq apikey,
         resourceGetReq path (.jstr t1)]
    ∧ (runM (ServerBridge.post path d)
        (initState apikey (.jstr t0) [r1, ra, r2])).2.calls
      = [resourcePostReq path (.jstr t0) d, authReq apikey,
         resourcePostReq path (.jstr t1) d]
    ∧ (runM (ServerBridge.delete path)
        (initState apikey (.jstr t0) [r1, ra, r2])).2.calls
      = [resourceDeleteReq path (.jstr t0), authReq apikey,
         resourceDeleteReq path (.jstr t1)]
    ∧ (runM (ServerBridge.get path)
        (initState apikey (.jstr t0) [r1, ra, r2])).2.token_header
      = [("X-AUTH-TOKEN", .jstr t1)] := by
  have h403 : r2.status_code ≠ 403 := by omega
  have h401 : r2.status_code ≠ 401 := by omega
  have h400 : r2.status_code ≠ 400 := by omega
  have h500 : r2.status_code ≠ 500 := by omega
  refine ⟨?_, ?_, ?_, ?_, ?_⟩
  · intro s p
    simp [runM, ServerBridge.raw_get, performRequest,
      M.bind_eq, M.pure_eq, M.bind, M.pure, M.getState]
  · intro s p d'
    simp [runM, ServerBridge.raw_post, performRequest,
      M.bind_eq, M.pure_eq, M.bind, M.pure, M.getState]
  · intro s p
    simp [runM, ServerBridge.raw_delete, performRequest,
      M.bind_eq, M.pure_eq, M.bind, M.pure, M.getState]
  · intro s u
    simp [runM, ServerBridge.get_with_url, performRequest,
      M.bind_eq, M.pure_eq, M.bind, M.pure, M.getState]
  · rcases h1 with h1 | h1 <;>
      simp [runM, ServerBridge.get, ServerBridge.post, ServerBridge.delete,
        try_again, try_again_go, raise_informative_exception,
        ServerBridge.raw_get, ServerBridge.raw_post, ServerBridge.raw_delete,
        ServerBridge.reauthenticate, ServerBridge._get_token,
        ServerBridge._post_with_apikey, ServerBridge.raw_post_with_apikey,
        performRequest, prepare_headers, custom_headers, initState,
        M.bind_eq, M.pure_eq, M.bind, M.pure, M.getState, M.setState, M.throw,
        JVal.lookup, lookupFields, List.contains, h1, ha, hab,
        h403, h401, h400, h500, create_exception_object,
        authReq, resourceGetReq, resourcePostReq, resourceDeleteReq]

/-- Witness for `c9_token_recomputed` at a concrete input, exercising the
retried `get`, `post` and `delete` scenarios. -/
theorem c9_token_recomputed_witness :
    ((401 : Nat) = 401 ∨ (401 : Nat) = 403)
    ∧ (runM (ServerBridge.get "datasources")
        (initState "apikey" (.jstr "t0")
          [⟨401, "no", .jnull⟩, authOkResponse "t1", ⟨200, "ok", .jnull⟩])).2.calls
      = [resourceGetReq "datasources" (.jstr "t0"), authReq "apikey",
         resourceGetReq "datasources" (.jstr "t1")]
    ∧ (runM (ServerBridge.post "datasources" (.jobj [("name", .jstr "n")]))
        (initState "apikey" (.jstr "t0")
          [⟨401, "no", .jnull⟩, authOkResponse "t1", ⟨200, "ok", .jnull⟩])).2.calls
      = [resourcePostReq "datasources" (.jstr "t0") (.jobj [("name", .jstr "n")]),
         authReq "apikey",
         resourcePostReq "datasources" (.jstr "t1") (.jobj [("name", .jstr "n")])]
    ∧ (runM (ServerBridge.delete "datasources")
        (initState "apikey" (.jstr "t0")
          [⟨401, "no", .jnull⟩, authOkResponse "t1", ⟨200, "ok", .jnull⟩])).2.calls
      = [resourceDeleteReq "datasources" (.jstr "t0"), authReq "apikey",
         resourceDeleteReq "datasources" (.jstr "t1")]
    ∧ (runM (ServerBridge.get "datasources")
        (initState "apikey" (.jstr "t0")
          [⟨401, "no", .jnull⟩, authOkResponse "t1", ⟨200, "ok", .jnull⟩])).2.token_header
      = [("X-AUTH-TOKEN", .jstr "t1")] := by
  refine ⟨Or.inl rfl, ?_, ?_, ?_, ?_⟩
  · exact (c9_token_recomputed "apikey" "t0" "datasources" "t1"
      (.jobj [("name", .jstr "n")])
      ⟨401, "no", .jnull⟩ (authOkResponse "t1") ⟨200, "ok", .jnull⟩
      (Or.inl rfl) rfl rfl (by decide) (by decide)).2.2.2.2.1
  · exact (c9_token_recomputed "apikey" "t0" "datasources" "t1"
      (.jobj [("name", .jstr "n")])
      ⟨401, "no", .jnull⟩ (authOkResponse "t1") ⟨200, "ok", .jnull⟩
      (Or.inl rfl) rfl rfl (by decide) (by decide)).2.2.2.2.2.1
  · exact (c9_token_recomputed "apikey" "t0" "datasources" "t1"
      (.jobj [("name", .jstr "n")])
      ⟨401, "no", .jnull⟩ (authOkResponse "t1") ⟨200, "ok", .jnull⟩
      (Or.inl rfl) rfl rfl (by decide) (by decide)).2.2.2.2.2.2.1
  · exact (c9_token_recomputed "apikey" "t0" "datasources" "t1"
      (.jobj [("name", .jstr "n")])
      ⟨401, "no", .jnull⟩ (authOkResponse "t1") ⟨200, "ok", .jnull⟩
      (Or.inl rfl) rfl rfl (by decide) (by decide)).2.2.2.2.2.2.2

/-- If `check_keys` accepts a dict, every required key is present. -/
theorem check_keys_ok_lookup (ks : List String) (fs : List (String × JVal))
    (h : check_keys ks (.jobj fs) = .ok ()) :
    ∀ k ∈ ks, (lookupFields fs k).isSome = true := by
  induction ks with
  | nil => intro k hk; cases hk
  | cons k0 ks ih =>
    cases hl : lookupFields fs k0 with
    | none => simp [check_keys, py_contains, hl] at h
    | some v =>
      have h' : check_keys ks (.jobj fs) = .ok () := by
        simpa [check_keys, py_contains, hl] using h
      intro k hk
      rcases List.mem_cons.mp hk with rfl | hk'
      · simp [hl]
      · exact ih h' k hk'

/-- If some required key is missing from a dict, `check_keys` raises the
missing-key `InvalidInput` naming the first such key. -/
theorem check_keys_missing (ks : List String) (fs : List (String × JVal))
    (h : ∃ k ∈ ks, lookupFields fs k = none) :
    ∃ k ∈ ks, lookupFields fs k = none
      ∧ check_keys ks (.jobj fs) = .error (.invalidInput (missingKeyMsg k)) := by
  induction ks with
  | nil => obtain ⟨k, hk, _⟩ := h; cases hk
  | cons k0 ks ih =>
    cases hl : lookupFields fs k0 with
    | none =>
      exact ⟨k0, List.mem_cons_self k0 ks, hl,
        by simp [check_keys, py_contains, hl]⟩
    | some v =>
      obtain ⟨k, hk, hknone⟩ := h
      rcases List.mem_cons.mp hk with rfl | hk'
      · rw [hl] at hknone; cases hknone
      · obtain ⟨k', hk', hnone', heq⟩ := ih ⟨k, hk', hknone⟩
        exact ⟨k', List.mem_cons_of_mem _ hk', hnone',
          by simp [check_keys, py_contains, hl, heq]⟩

/-- An error from `check_keys` on a dict is always the missing-key
`InvalidInput` of some absent required key. -/
theorem check_keys_error_form (ks : List String) (fs : List (String × JVal))
    (err : PyErr) (h : check_keys ks (.jobj fs) = .error err) :
    ∃ k ∈ ks, lookupFields fs k = none
      ∧ err = .invalidInput (missingKeyMsg k) := by
  induction ks with
  | nil => simp [check_keys] at h
  | cons k0 ks ih =>
    cases hl : lookupFields fs k0 with
    | none =>
      have herr : err = .invalidInput (missingKeyMsg k0) := by
        have := h
        simp [check_keys, py_contains, hl] at this
        exact this.symm
      exact ⟨k0, List.mem_cons_self k0 ks, hl, herr⟩
    | some v =>
      have h' : check_keys ks (.jobj fs) = .error err := by
        simpa [check_keys, py_contains, hl] using h
      obtain ⟨k, hk, hnone, heq⟩ := ih h'
      exact ⟨k, List.mem_cons_of_mem _ hk, hnone, heq⟩

/-- If every element of a list of dicts is a dict and one of them misses a
required key, the eager per-element check raises the missing-key
`InvalidInput` of some required key. -/
theorem check_keys_list_missing (ks : List String) (xs : List JVal)
    (hobj : ∀ e ∈ xs, ∃ fs, e = .jobj fs)
    (h : ∃ e ∈ xs, ∃ k ∈ ks, JVal.lookup e k = none) :
    ∃ k ∈ ks, check_keys_list ks xs
      = .error (.invalidInput (missingKeyMsg k)) := by
  induction xs with
  | nil => obtain ⟨e, he, _⟩ := h; cases he
  | cons e0 es ih =>
    obtain ⟨fs0, rfl⟩ := hobj _ (List.mem_cons_self e0 es)
    cases hc : check_keys ks (.jobj fs0) with
    | ok u =>
      cases u
      obtain ⟨e, he, k, hk, hnone⟩ := h
      rcases List.mem_cons.mp he with rfl | he'
      · have hsome := check_keys_ok_lookup ks fs0 hc k hk
        have : lookupFields fs0 k = none := hnone
        rw [this] at hsome
        cases hsome
      · obtain ⟨k', hk', heq⟩ :=
          ih (fun e he => hobj e (List.mem_cons_of_mem _ he)) ⟨e, he', k, hk, hnone⟩
        exact ⟨k', hk', by simp [check_keys_list, hc, heq]⟩
    | error err =>
      obtain ⟨k, hk, _, herr⟩ := check_keys_error_form ks fs0 err hc
      exact ⟨k, hk, by simp [check_keys_list, hc, herr]⟩

/-- If the eager per-element check accepts a list, it accepts each element. -/
theorem check_keys_list_ok (ks : List String) (xs : List JVal)
    (h : check_keys_list ks xs = .ok ()) :
    ∀ e ∈ xs, check_keys ks e = .ok () := by
  induction xs with
  | nil => intro e he; cases he
  | cons e0 es ih =>
    cases hc : check_keys ks e0 with
    | ok u =>
      cases u
      have h' : check_keys_list ks es = .ok () := by
        simpa [check_keys_list, hc] using h
      intro e he
      rcases List.mem_cons.mp he with rfl | he'
      · exact hc
      · exact ih h' e he'
    | error err => simp [check_keys_list, hc] at h

/-- If `check_keys` accepts a value, every required key is contained in it. -/
theorem check_keys_ok_contains (ks : List String) (e : JVal) (k : String)
    (hk : k ∈ ks) (h : check_keys ks e = .ok ()) :
    py_contains e k = .ok true := by
  induction ks with
  | nil => cases hk
  | cons k0 ks ih =>
    cases hc : py_contains e k0 with
    | error err => simp [check_keys, hc] at h
    | ok b =>
      cases b with
      | false => simp [check_keys, hc] at h
      | true =>
        have h' : check_keys ks e = .ok () := by
          simpa [check_keys, hc] using h
        rcases List.mem_cons.mp hk with rfl | hk'
        · exact hc
        · exact ih hk' h'

/-- Under the validator's postcondition that every element contains the
`timestamp` key, the timestamp-type scan never raises a `KeyError`: a dict
element's subscript is total, and a non-dict element (which Python's `in`
can let through, e.g. a string with both key names as substrings) raises
`TypeError`, not a missing-key error. -/
theorem timestamp_all_no_keyError (xs : List JVal)
    (h : ∀ e ∈ xs, py_contains e "timestamp" = .ok true) :
    ∀ k, timestamp_all xs ≠ .error (.keyError k) := by
  induction xs with
  | nil => intro k hcontra; simp [timestamp_all] at hcontra
  | cons e es ih =>
    intro k hcontra
    have hts := h e (List.mem_cons_self e es)
    have ihtail := ih (fun e' he' => h e' (List.mem_cons_of_mem _ he'))
    cases e with
    | jobj fs =>
      have hsome : (lookupFields fs "timestamp").isSome = true := by
        simpa [py_contains] using hts
      obtain ⟨v, hv⟩ := Option.isSome_iff_exists.mp hsome
      rw [timestamp_all, pySubscript, hv] at hcontra
      cases hint : isPyInt v with
      | false => simp [hint] at hcontra
      | true =>
        simp [hint] at hcontra
        exact ihtail k hcontra
    | jnull => rw [timestamp_all] at hcontra; simp [pySubscript] at hcontra
    | jbool b => rw [timestamp_all] at hcontra; simp [pySubscript] at hcontra
    | jnum n => rw [timestamp_all] at hcontra; simp [pySubscript] at hcontra
    | jstr s => rw [timestamp_all] at hcontra; simp [pySubscript] at hcontra
    | jarr ys => rw [timestamp_all] at hcontra; simp [pySubscript] at hcontra

/-- C8: each operation guarded by `validate_input` — `create_datasource`
(dict, name), `create_variable` (dict, name/unit/icon), `save_value`
(dict, value), `save_values` (list, key/timestamp), `save_collection`
(list, variable/value) — raises `InvalidInput` naming the expected shape
when the first argument has the wrong shape, and `InvalidInput` naming a
missing required key when the shape matches but the key is absent from the
mapping (or from some element of the sequence of mappings); in every case
the state, including the transport log, is untouched: no network call is
performed. -/
theorem c8_validator_guards
    (s : BridgeState) (ds : Datasource) (v : Variable) (force : Bool)
    (bad : JVal)
    (hbadD : isInstanceOf bad .dict = false)
    (hbadL : isInstanceOf bad .list = false)
    (f1 f2 f3 : List (String × JVal))
    (h1 : ∃ k ∈ ["name"], lookupFields f1 k = none)
    (h2 : ∃ k ∈ ["name", "unit", "icon"], lookupFields f2 k = none)
    (h3 : ∃ k ∈ ["value"], lookupFields f3 k = none)
    (l4 l5 : List JVal)
    (h4obj : ∀ e ∈ l4, ∃ fs, e = .jobj fs)
    (h4 : ∃ e ∈ l4, ∃ k ∈ ["key", "timestamp"], JVal.lookup e k = none)
    (h5obj : ∀ e ∈ l5, ∃ fs, e = .jobj fs)
    (h5 : ∃ e ∈ l5, ∃ k ∈ ["variable", "value"], JVal.lookup e k = none) :
    runM (ApiClient.create_datasource bad) s
      = (.error (.invalidInput (shapeErrMsg .dict)), s)
    ∧ runM (Datasource.create_variable ds bad) s
      = (.error (.invalidInput (shapeErrMsg .dict)), s)
    ∧ runM (Variable.save_value v bad) s
      = (.error (.invalidInput (shapeErrMsg .dict)), s)
    ∧ runM (Variable.save_values v bad force) s
      = (.error (.invalidInput (shapeErrMsg .list)), s)
    ∧ runM (ApiClient.save_collection bad force) s
      = (.error (.invalidInput (shapeErrMsg .list)), s)
    ∧ (∃ k ∈ ["name"], lookupFields f1 k = none
        ∧ runM (ApiClient.create_datasource (.jobj f1)) s
          = (.error (.invalidInput (missingKeyMsg k)), s))
    ∧ (∃ k ∈ ["name", "unit", "icon"], lookupFields f2 k = none
        ∧ runM (Datasource.create_variable ds (.jobj f2)) s
          = (.error (.invalidInput (missingKeyMsg k)), s))
    ∧ (∃ k ∈ ["value"], lookupFields f3 k = none
        ∧ runM (Variable.save_value v (.jobj f3)) s
          = (.error (.invalidInput (missingKeyMsg k)), s))
    ∧ (∃ k ∈ ["key", "timestamp"],
        runM (Variable.save_values v (.jarr l4) force) s
          = (.error (.invalidInput (missingKeyMsg k)), s))
    ∧ (∃ k ∈ ["variable", "value"],
        runM (ApiClient.save_collection (.jarr l5) force) s
          = (.error (.invalidInput (missingKeyMsg k)), s)) := by
  refine ⟨?_, ?_, ?_, ?_, ?_, ?_, ?_, ?_, ?_, ?_⟩
  · simp [runM, ApiClient.create_datasource, guarded, validate_input, hbadD]
  · simp [runM, Datasource.create_variable, guarded, validate_input, hbadD]
  · simp [runM, Variable.save_value, guarded, validate_input, hbadD]
  · simp [runM, Variable.save_values, guarded, validate_input, hbadL]
  · simp [runM, ApiClient.save_collection, guarded, validate_input, hbadL]
  · obtain ⟨k, hk, hnone, heq⟩ := check_keys_missing _ f1 h1
    exact ⟨k, hk, hnone, by
      simp [runM, ApiClient.create_datasource, guarded, validate_input,
        isInstanceOf, heq]⟩
  · obtain ⟨k, hk, hnone, heq⟩ := check_keys_missing _ f2 h2
    exact ⟨k, hk, hnone, by
      simp [runM, Datasource.create_variable, guarded, validate_input,
        isInstanceOf, heq]⟩
  · obtain ⟨k, hk, hnone, heq⟩ := check_keys_missing _ f3 h3
    exact ⟨k, hk, hnone, by
      simp [runM, Variable.save_value, guarded, validate_input,
        isInstanceOf, heq]⟩
  · obtain ⟨k, hk, heq⟩ := check_keys_list_missing _ l4 h4obj h4
    exact ⟨k, hk, by
      simp [runM, Variable.save_values, guarded, validate_input,
        isInstanceOf, heq]⟩
  · obtain ⟨k, hk, heq⟩ := check_keys_list_missing _ l5 h5obj h5
    exact ⟨k, hk, by
      simp [runM, ApiClient.save_collection, guarded, validate_input,
        isInstanceOf, heq]⟩

/-- Witness for `c8_validator_guards` at concrete inputs: a scalar argument
for the shape checks and dicts/lists each missing one required key. -/
theorem c8_validator_guards_witness :
    isInstanceOf (.jstr "scalar") .dict = false
    ∧ isInstanceOf (.jstr "scalar") .list = false
    ∧ lookupFields ([] : List (String × JVal)) "name" = none
    ∧ runM (ApiClient.create_datasource (.jstr "scalar")) idleState
      = (.error (.invalidInput (shapeErrMsg .dict)), idleState)
    ∧ runM (ApiClient.save_collection (.jstr "scalar") false) idleState
      = (.error (.invalidInput (shapeErrMsg .list)), idleState)
    ∧ runM (Variable.save_values ⟨.jobj [("id", .jstr "v1")], ⟨.jobj []⟩⟩
          (.jstr "scalar") false) idleState
      = (.error (.invalidInput (shapeErrMsg .list)), idleState) := by
  have happ := c8_validator_guards idleState ⟨.jobj [("id", .jstr "d1")]⟩
    ⟨.jobj [("id", .jstr "v1")], ⟨.jobj []⟩⟩ false (.jstr "scalar") rfl rfl
    [] [("name", .jstr "n")] []
    ⟨"name", by simp, rfl⟩
    ⟨"unit", by simp, rfl⟩
    ⟨"value", by simp, rfl⟩
    [.jobj [("key", .jstr "a")]] [.jobj [("variable", .jstr "x")]]
    (by intro e he; rw [List.mem_singleton] at he; exact ⟨_, he⟩)
    ⟨.jobj [("key", .jstr "a")], by simp, "timestamp", by simp, rfl⟩
    (by intro e he; rw [List.mem_singleton] at he; exact ⟨_, he⟩)
    ⟨.jobj [("variable", .jstr "x")], by simp, "value", by simp, rfl⟩
  exact ⟨rfl, rfl, rfl, happ.1, happ.2.2.2.2.1, happ.2.2.2.1⟩

/-- C10: if a list argument passes `save_values`' generic key-presence
validation `validate_input(list, ["key", "timestamp"])`, then every element
contains the `timestamp` key (for dict elements the lookup is total), and
the subsequent `e['timestamp']` scan of the body never fails with a
missing-key error. -/
theorem c10_timestamp_lookup_total (xs : List JVal)
    (h : validate_input .list ["key", "timestamp"] (.jarr xs) = .ok ()) :
    (∀ e ∈ xs, py_contains e "timestamp" = .ok true)
    ∧ (∀ fs, .jobj fs ∈ xs → (lookupFields fs "timestamp").isSome = true)
    ∧ (∀ k, timestamp_all xs ≠ .error (.keyError k)) := by
  have hl : check_keys_list ["key", "timestamp"] xs = .ok () := by
    simpa [validate_input, isInstanceOf] using h
  have hok := check_keys_list_ok _ _ hl
  have hcont : ∀ e ∈ xs, py_contains e "timestamp" = .ok true :=
    fun e he => check_keys_ok_contains _ e "timestamp" (by simp) (hok e he)
  refine ⟨hcont, ?_, timestamp_all_no_keyError xs hcont⟩
  intro fs hfs
  simpa [py_contains] using hcont _ hfs

/-- Witness for `c10_timestamp_lookup_total` at a concrete validated list. -/
theorem c10_timestamp_lookup_total_witness :
    validate_input .list ["key", "timestamp"]
      (.jarr [.jobj [("key", .jstr "a"), ("timestamp", .jnum 1)]]) = .ok ()
    ∧ timestamp_all [.jobj [("key", .jstr "a"), ("timestamp", .jnum 1)]]
        ≠ .error (.keyError "timestamp") := by
  exact ⟨rfl, (c10_timestamp_lookup_total
    [.jobj [("key", .jstr "a"), ("timestamp", .jnum 1)]] rfl).2.2 "timestamp"⟩
